import Mathlib

/-!
# Verification of the rp2040 machine package (I2C driver and GPIO interrupt plumbing)

Shallow embedding of `src/machine/machine_rp2040_i2c.go` and
`src/machine/machine_rp2040_gpio.go`.

The I2C hardware environment (poll-loop outcomes, abort-source register
contents, received data) is modelled as an oracle supplied per byte index:
the driver code only observes the hardware through those reads, so every
behaviour of the Go functions corresponds to a choice of oracle.

Machine integers: all arithmetic in the translated routines stays far below
`2^32` (the largest intermediate is `125_000_000 * 3`), so `Nat` is used
directly with explicit `% 256` where the Go code converts to `uint8`.
-/

/-! ## Register contract constants (RP2040 datasheet / device package values) -/

/-- Width mask of the `IC_FS_SCL_HCNT` field (16 bits). -/
def icFsSclHcntMask : Nat := 0xFFFF

/-- Width mask of the `IC_FS_SCL_LCNT` field (16 bits). -/
def icFsSclLcntMask : Nat := 0xFFFF

/-- Bit position of the RESTART flag in `IC_DATA_CMD`. -/
def icDataCmdRestartPos : Nat := 10

/-- Bit position of the STOP flag in `IC_DATA_CMD`. -/
def icDataCmdStopPos : Nat := 9

/-- The read-command marker bit of `IC_DATA_CMD` (`rp.I2C0_IC_DATA_CMD_CMD`). -/
def icDataCmdCmd : Nat := 1 <<< 8

/-- Constant `rp.I2C0_IC_TX_ABRT_SOURCE_ABRT_7B_ADDR_NOACK` (bit 0). -/
def abrt7BAddrNoack : Nat := 1

/-- Constant `rp.I2C0_IC_TX_ABRT_SOURCE_ABRT_TXDATA_NOACK` (bit 3). -/
def abrtTxdataNoack : Nat := 1 <<< 3

/-! ## Errors (the `errors.New` values and `i2cBuffError` of the Go source) -/

/-- The error values a transfer or configuration call can return. -/
inductive I2CError where
  /-- Go `errInvalidI2CBaudrate` -/
  | invalidBaudrate
  /-- Go `errInvalidTgtAddr` -/
  | invalidTgtAddr
  /-- Go `errI2CTimeout` -/
  | timeout
  /-- Go `errI2CGeneric` -/
  | generic
  /-- Go `i2cBuffError(idx)` built by `makeI2CBuffError` -/
  | buffError (idx : Nat)
deriving DecidableEq, Repr

/-- Go `boolToBit`. -/
def boolToBit (a : Bool) : Nat := if a then 1 else 0

/-- Go `umax32`. -/
def umax32 (a b : Nat) : Nat := if a > b then a else b

/-- Go `isReservedI2CAddr`: `(addr&0x78) == 0 || (addr&0x78) == 0x78`. -/
def isReservedI2CAddr (addr : Nat) : Bool :=
  addr &&& 0x78 == 0 || addr &&& 0x78 == 0x78

/-! ## SetBaudrate -/

/-- Local `freqin` in `SetBaudrate`: `125 * MHz`. -/
def i2cFreqIn : Nat := 125000000

/-- Local `period := (freqin + br/2) / br` (all `uint32`, no overflow for any
32-bit `br`: `freqin + br/2 ≤ 125e6 + 2^31 < 2^32`). -/
def i2cPeriod (br : Nat) : Nat := (i2cFreqIn + br / 2) / br

/-- Local `lcnt := period * 3 / 5`. -/
def i2cLcnt (br : Nat) : Nat := i2cPeriod br * 3 / 5

/-- Local `hcnt := period - lcnt`. -/
def i2cHcnt (br : Nat) : Nat := i2cPeriod br - i2cLcnt br

/-- Local `sdaTxHoldCnt`: `(freqin*3)/10000000 + 1`, overwritten with
`(freqin*3)/25000000 + 1` when `br >= 1_000_000`. -/
def i2cSdaTxHoldCnt (br : Nat) : Nat :=
  let sdaTxHoldCnt := i2cFreqIn * 3 / 10000000 + 1
  if br ≥ 1000000 then i2cFreqIn * 3 / 25000000 + 1 else sdaTxHoldCnt

/-- The timing registers `SetBaudrate` programs on its success path, plus the
final enable state of the controller (`IC_ENABLE` is last written by
`i2c.enable()`). -/
structure BaudRegs where
  hcnt : Nat
  lcnt : Nat
  spklen : Nat
  sdaHold : Nat
  enabled : Bool
deriving DecidableEq, Repr

/-- Go `(*I2C).SetBaudrate`: returns the programmed registers on success and
`errInvalidI2CBaudrate` on either validation failure.  On the error paths no
register is touched. -/
def i2cSetBaudrate (br : Nat) : Except I2CError BaudRegs :=
  let lcnt := i2cLcnt br
  let hcnt := i2cHcnt br
  if hcnt > icFsSclHcntMask ∨ hcnt < 8 ∨ lcnt > icFsSclLcntMask ∨ lcnt < 8 then
    Except.error I2CError.invalidBaudrate
  else
    let sdaTxHoldCnt := i2cSdaTxHoldCnt br
    if sdaTxHoldCnt ≤ lcnt - 2 then
      Except.error I2CError.invalidBaudrate
    else
      Except.ok
        { hcnt := hcnt, lcnt := lcnt, spklen := umax32 1 (lcnt / 16),
          sdaHold := sdaTxHoldCnt, enabled := true }

/-! ## Transfer engine: hardware oracle

The driver observes the bus hardware only through a fixed set of register
reads inside each byte iteration.  The oracle records, per byte index, what
those reads return:

* `txEmptyBusy` — whether the `IC_RAW_INTR_STAT & TX_EMPTY` poll condition
  holds when first sampled for this byte (if it holds and a timeout budget is
  active the call returns `errI2CTimeout`; without a budget the loop spins
  until the hardware clears it, with no other observable effect);
* `abortSrc` — the value `IC_TX_ABRT_SOURCE` reads during this byte's
  handling (read-to-clear; read once per byte in `tx`, once per wait
  iteration in `rx`, modelled as one value per byte wait);
* `stopDetBusy` — whether the `STOP_DET` poll condition holds when first
  sampled (same timeout discipline as `txEmptyBusy`);
* `rxStall` — whether `readAvailable()` reads `0` when the receive wait for
  this byte starts;
* `data` — the value `IC_DATA_CMD` reads when the received byte is popped.
-/

/-- Per-byte hardware responses observed by `tx`. -/
structure TxByteEnv where
  txEmptyBusy : Bool
  abortSrc : Nat
  stopDetBusy : Bool
deriving DecidableEq, Repr

/-- Per-byte hardware responses observed by `rx`. -/
structure RxByteEnv where
  rxStall : Bool
  abortSrc : Nat
  data : Nat
deriving DecidableEq, Repr

/-- The mutable driver state carried between calls (`I2C.restartOnNext`). -/
structure I2CState where
  restartOnNext : Bool
deriving DecidableEq, Repr

/-- Observable outcome of a `tx` call: the returned error (`none` = `nil`),
the final `restartOnNext`, the sequence of values written to `IC_DATA_CMD`,
and whether any controller register was accessed at all. -/
structure TxOut where
  err : Option I2CError
  restartOnNext : Bool
  cmds : List Nat
  hw : Bool
deriving DecidableEq, Repr

/-- Observable outcome of an `rx` call; `received` is the byte sequence
stored into the caller's buffer. -/
structure RxOut where
  err : Option I2CError
  restartOnNext : Bool
  cmds : List Nat
  received : List Nat
  hw : Bool
deriving DecidableEq, Repr

/-- Local `timeoutCheck := timeout != 0` in `tx` ("If no timeout was passed
timeoutCheck is false."). -/
def txTimeoutCheck (timeout : Int) : Bool := timeout != 0

/-- Local `timeoutCheck := deadline == 0` in `rx` (note: the comparison is the
opposite of the one in `tx`). -/
def rxTimeoutCheck (deadline : Int) : Bool := deadline == 0

/-- The abort classification switch at the bottom of `tx` and of `rx`:
`abortReason == 0 || abortReason & ABRT_7B_ADDR_NOACK != 0` yields
`errI2CGeneric`; every other non-zero reason (the `ABRT_TXDATA_NOACK` case
falls through to the default in `tx`, and `rx` has only the default) yields
`makeI2CBuffError(byteCtr)`. -/
def i2cAbortError (abortReason byteCtr : Nat) : I2CError :=
  if abortReason = 0 ∨ abortReason &&& abrt7BAddrNoack ≠ 0 then
    I2CError.generic
  else
    I2CError.buffError byteCtr

/-- The byte loop of `tx` (`for ; byteCtr < tlen; byteCtr++`).  Arguments
mirror the Go locals: the remaining bytes paired with the running index
`byteCtr`, the `abort` flag, the last `abortReason` read, and the
accumulated (reversed) `IC_DATA_CMD` writes.  `r0` is the value of
`i2c.restartOnNext` on entry (the field is only reassigned at return
points, so every read inside the loop sees the entry value). -/
def txLoop (env : Nat → TxByteEnv) (r0 nostop tc : Bool) (tlen : Nat) :
    List Nat → Nat → Bool → Nat → List Nat → TxOut
  | [], byteCtr, abort, abortReason, cmds =>
    { err := if abort then some (i2cAbortError abortReason byteCtr) else none,
      restartOnNext := nostop, cmds := cmds.reverse, hw := true }
  | b :: rest, byteCtr, abort, _abortReason, cmds =>
    let e := env byteCtr
    let first := byteCtr == 0
    let last := byteCtr == tlen - 1
    let cmd := boolToBit (first && r0) <<< icDataCmdRestartPos |||
        boolToBit (last && !nostop) <<< icDataCmdStopPos ||| b
    let cmds' := cmd :: cmds
    -- TX_EMPTY drain poll: with an active budget the body returns
    -- `errI2CTimeout` on the first busy iteration.
    if tc && e.txEmptyBusy then
      { err := some I2CError.timeout, restartOnNext := nostop,
        cmds := cmds'.reverse, hw := true }
    else
      let abortReason' := e.abortSrc
      let abort' := abort || abortReason' != 0
      -- STOP_DET wait, entered on abort or on a framed-stop byte.
      if (abort' || (last && !nostop)) && (tc && e.stopDetBusy) then
        { err := some I2CError.timeout, restartOnNext := nostop,
          cmds := cmds'.reverse, hw := true }
      else
        txLoop env r0 nostop tc tlen rest (byteCtr + 1) abort' abortReason' cmds'

/-- Go `(*I2C).tx`. -/
def i2cTx (env : Nat → TxByteEnv) (st : I2CState) (addr : Nat)
    (tx : List Nat) (nostop : Bool) (timeout : Int) : TxOut :=
  if decide (addr ≥ 0x80) || isReservedI2CAddr addr then
    { err := some I2CError.invalidTgtAddr, restartOnNext := st.restartOnNext,
      cmds := [], hw := false }
  else if tx.length = 0 then
    { err := none, restartOnNext := st.restartOnNext, cmds := [], hw := false }
  else
    txLoop env st.restartOnNext nostop (txTimeoutCheck timeout) tx.length
      tx 0 false 0 []

/-- The byte loop of `rx`.  `remaining` is `rlen - byteCtr` (the loop
variable is still `byteCtr`); `abortReason` is the last value assigned by
the receive wait.  Within one byte's receive wait the abort source is read
on every iteration; the oracle supplies one value for the wait, so: with an
active budget a stalled wait returns `errI2CTimeout` from its first
iteration; without one, a non-zero abort source aborts (breaking the byte
loop before the byte is popped) and a zero abort source leaves the wait
when data arrives, having overwritten `abortReason` with `0`.  A wait that
never stalls runs zero iterations and leaves `abortReason` unchanged. -/
def rxLoop (env : Nat → RxByteEnv) (r0 nostop tc : Bool) (rlen : Nat) :
    Nat → Nat → Nat → List Nat → List Nat → RxOut
  | 0, _, _, cmds, recvd =>
    { err := none, restartOnNext := nostop, cmds := cmds.reverse,
      received := recvd.reverse, hw := true }
  | remaining + 1, byteCtr, abortReason, cmds, recvd =>
    let e := env byteCtr
    let first := byteCtr == 0
    let last := byteCtr == rlen - 1
    let cmd := boolToBit (first && r0) <<< icDataCmdRestartPos |||
        boolToBit (last && !nostop) <<< icDataCmdStopPos ||| icDataCmdCmd
    let cmds' := cmd :: cmds
    if tc && e.rxStall then
      { err := some I2CError.timeout, restartOnNext := nostop,
        cmds := cmds'.reverse, received := recvd.reverse, hw := true }
    else if e.rxStall && e.abortSrc != 0 then
      -- `abort` was set inside the wait: `break`, classify, set
      -- `restartOnNext`, return.
      { err := some (i2cAbortError e.abortSrc byteCtr), restartOnNext := nostop,
        cmds := cmds'.reverse, received := recvd.reverse, hw := true }
    else
      rxLoop env r0 nostop tc rlen remaining (byteCtr + 1)
        (if e.rxStall then e.abortSrc else abortReason) cmds'
        (e.data % 256 :: recvd)

/-- Go `(*I2C).rx`; `rlen` is the destination buffer length (`len(rx)`). -/
def i2cRx (env : Nat → RxByteEnv) (st : I2CState) (addr : Nat)
    (rlen : Nat) (nostop : Bool) (deadline : Int) : RxOut :=
  if decide (addr ≥ 0x80) || isReservedI2CAddr addr then
    { err := some I2CError.invalidTgtAddr, restartOnNext := st.restartOnNext,
      cmds := [], received := [], hw := false }
  else if rlen = 0 then
    { err := none, restartOnNext := st.restartOnNext, cmds := [],
      received := [], hw := false }
  else
    rxLoop env st.restartOnNext nostop (rxTimeoutCheck deadline) rlen
      rlen 0 0 [] []

/-- Result of the public `Tx` (error returned plus final driver state). -/
structure TxPublicOut where
  err : Option I2CError
  restartOnNext : Bool
deriving DecidableEq, Repr

/-- Go `(*I2C).Tx(addr uint16, w, r []byte)`: a write phase (skipped when
`w` is empty) followed by a read phase (skipped when `r` is empty), both
with `nostop = false` and timeout `0`, and both called with `uint8(addr)`
(that is, `addr % 256`). -/
def i2cTxPublic (envW : Nat → TxByteEnv) (envR : Nat → RxByteEnv)
    (st : I2CState) (addr : Nat) (w : List Nat) (rlen : Nat) : TxPublicOut :=
  if w.length > 0 then
    let o := i2cTx envW st (addr % 256) w false 0
    match o.err with
    | some e => { err := some e, restartOnNext := o.restartOnNext }
    | none =>
      if rlen > 0 then
        let o2 := i2cRx envR { restartOnNext := o.restartOnNext } (addr % 256)
          rlen false 0
        { err := o2.err, restartOnNext := o2.restartOnNext }
      else
        { err := none, restartOnNext := o.restartOnNext }
  else if rlen > 0 then
    let o2 := i2cRx envR st (addr % 256) rlen false 0
    { err := o2.err, restartOnNext := o2.restartOnNext }
  else
    { err := none, restartOnNext := st.restartOnNext }

/-! ## Interrupt vector table (machine_rp2040_gpio.go)

Handler values are Go function pointers; only their identity matters here,
so a handler is modelled as a `Nat` identity and a vector-table slot as an
`Option Nat` (`none` = the Go `nil`).  The spinlock acquire/release and the
memory fences around the table update have no sequential observable effect
and are not modelled (the claims here are about the single-core,
sequential behaviour of the install operation). -/

/-- Go `_NUMIRQ`. -/
def numIRQ : Nat := 32

/-- A vector table: 16 exception slots followed by `_NUMIRQ` interrupt
slots, as returned by `getVtable()`. -/
def Vtable : Type := Nat → Option Nat

/-- The fatal conditions (`panic`) of the interrupt subsystem. -/
inductive IrqPanic where
  /-- Go `panic(ErrInvalidInputPin)` when `num >= _NUMIRQ` -/
  | invalidInputPin
  /-- Go `panic` with message: can't set handler due to non nil actual handler -/
  | handlerConflict
deriving DecidableEq, Repr

/-- Go `getVtableHandler`. -/
def getVtableHandler (vt : Vtable) (num : Nat) : Option Nat :=
  if num ≥ numIRQ then none else vt (num + 16)

/-- Go `setVtableHandler`: `getVtable()[16+num] = handler`. -/
def setVtableHandler (vt : Vtable) (num : Nat) (handler : Nat) : Vtable :=
  fun i => if i = 16 + num then some handler else vt i

/-- Go `irqSetExclusiveHandler`: panics for an out-of-range line, panics if
the current slot holds any non-nil handler (the identity of the installed
handler is never compared), otherwise installs. -/
def irqSetExclusiveHandler (vt : Vtable) (num : Nat) (handler : Nat) :
    Except IrqPanic Vtable :=
  if num ≥ numIRQ then
    Except.error IrqPanic.invalidInputPin
  else
    let current := getVtableHandler vt num
    if current ≠ none then
      Except.error IrqPanic.handlerConflict
    else
      Except.ok (setVtableHandler vt num handler)

/-! ## GPIO interrupt dispatcher (`gpioirqHandler`)

The per-core interrupt-status bank `base.intS` is four 32-bit registers,
eight pins per register, four event bits per pin.  `getIntChange` and
`acknowledgeInterrupt` are called by the dispatcher but defined elsewhere
in the repository; they are modelled from the spec below.  The per-core
callback slot `pinCallbacks[core]` stores a `func(Pin)`; for dispatch only
its presence matters, and the invocation is recorded in the outcome. -/

/-- Go `_NUMBANK0_GPIOS`. -/
def numBank0GPIOs : Nat := 30

/-- Modelled from the spec: `getIntChange` (not under `src/`) extracts the
pin's event bits from its status register — four bits per pin, eight pins
per 32-bit register, pin `p` occupying bits `4*(p%8) .. 4*(p%8)+3` of
register `intS[p/8]`. -/
def getIntChange (gpio statusVal : Nat) : Nat :=
  (statusVal >>> (4 * (gpio % 8))) &&& 0xF

/-- Modelled from the spec: `acknowledgeInterrupt` (not under `src/`)
write-clears the given event bits of the pin: the status bits selected by
`change <<< (4*(gpio%8))` in register `intS[gpio/8]` are cleared, all other
bits are left alone (32-bit register). -/
def acknowledgeInterrupt (gpio change : Nat) (intS : Nat → Nat) : Nat → Nat :=
  fun j =>
    if j = gpio / 8 then
      intS j &&& ((2 ^ 32 - 1) ^^^ (change <<< (4 * (gpio % 8))))
    else
      intS j

/-- The argument list the dispatcher passes when it invokes the registered
callback.  The source invokes `callback(gpio)`; `pinAndEvents` is the
invocation shape the spec describes (pin identity plus event mask) and is
used to state the spec's claim against the code. -/
inductive GpioCall where
  | pinOnly (pin : Nat)
  | pinAndEvents (pin : Nat) (events : Nat)
deriving DecidableEq, Repr

/-- How one `gpioirqHandler` invocation ends. -/
inductive GpioOutcome where
  /-- the callback was invoked with the recorded arguments and the handler
  returned -/
  | serviced (call : GpioCall)
  /-- Go `panic` with message: unset callback in handler -/
  | panicUnsetCallback
  /-- Go `panic` with message: gpio INT status not found -/
  | panicNoPending
deriving DecidableEq, Repr

/-- Result of one dispatcher invocation: the outcome plus the
interrupt-status bank after any acknowledgement. -/
structure GpioDispatch where
  outcome : GpioOutcome
  intS : Nat → Nat

/-- The scan loop of `gpioirqHandler` (`for gpio = 0; gpio < 30; gpio++`),
with `fuel = 30 - gpio` driving the recursion.  `cb` records whether
`pinCallbacks[core]` is non-nil. -/
def gpioirqLoop (cb : Bool) (intS : Nat → Nat) : Nat → Nat → GpioDispatch
  | 0, _ => { outcome := GpioOutcome.panicNoPending, intS := intS }
  | fuel + 1, gpio =>
    let change := getIntChange gpio (intS (gpio / 8))
    if change ≠ 0 then
      let intS' := acknowledgeInterrupt gpio change intS
      if cb then
        { outcome := GpioOutcome.serviced (GpioCall.pinOnly gpio), intS := intS' }
      else
        { outcome := GpioOutcome.panicUnsetCallback, intS := intS' }
    else
      gpioirqLoop cb intS fuel (gpio + 1)

/-- Go `gpioirqHandler` on the executing core's bank: scan pins `0..29`
ascending; at the first pin with a pending event, acknowledge it, invoke
the core's callback with the pin, and return; panic if no pin is pending
or the callback slot is nil. -/
def gpioirqHandler (cb : Bool) (intS : Nat → Nat) : GpioDispatch :=
  gpioirqLoop cb intS numBank0GPIOs 0

/-! ## Helper lemmas -/

/-- Neither branch of the abort classification yields the timeout error. -/
theorem i2cAbortError_ne_timeout (abortReason byteCtr : Nat) :
    i2cAbortError abortReason byteCtr ≠ I2CError.timeout := by
  unfold i2cAbortError
  split <;> simp

/-- Every exit of the `tx` byte loop assigns `restartOnNext = nostop`. -/
theorem txLoop_restartOnNext (env : Nat → TxByteEnv) (r0 nostop tc : Bool)
    (tlen : Nat) : ∀ (bytes : List Nat) (byteCtr : Nat) (abort : Bool)
    (abortReason : Nat) (cmds : List Nat),
    (txLoop env r0 nostop tc tlen bytes byteCtr abort abortReason cmds).restartOnNext
      = nostop := by
  intro bytes
  induction bytes with
  | nil => intro _ _ _ _; rfl
  | cons b rest ih =>
    intro byteCtr abort abortReason cmds
    simp only [txLoop]
    split
    · rfl
    · split
      · rfl
      · exact ih _ _ _ _

/-- Every exit of the `rx` byte loop assigns `restartOnNext = nostop`. -/
theorem rxLoop_restartOnNext (env : Nat → RxByteEnv) (r0 nostop tc : Bool)
    (rlen : Nat) : ∀ (remaining byteCtr abortReason : Nat)
    (cmds recvd : List Nat),
    (rxLoop env r0 nostop tc rlen remaining byteCtr abortReason cmds recvd).restartOnNext
      = nostop := by
  intro remaining
  induction remaining with
  | zero => intro _ _ _ _; rfl
  | succ n ih =>
    intro byteCtr abortReason cmds recvd
    simp only [rxLoop]
    split
    · rfl
    · split
      · rfl
      · exact ih _ _ _ _

/-- With no timeout budget (`timeoutCheck = false`) the `tx` byte loop never
returns the timeout error. -/
theorem txLoop_no_timeout (env : Nat → TxByteEnv) (r0 nostop : Bool)
    (tlen : Nat) : ∀ (bytes : List Nat) (byteCtr : Nat) (abort : Bool)
    (abortReason : Nat) (cmds : List Nat),
    (txLoop env r0 nostop false tlen bytes byteCtr abort abortReason cmds).err
      ≠ some I2CError.timeout := by
  intro bytes
  induction bytes with
  | nil =>
    intro byteCtr abort abortReason cmds
    simp only [txLoop]
    split
    · simp [i2cAbortError_ne_timeout]
    · simp
  | cons b rest ih =>
    intro byteCtr abort abortReason cmds
    simp only [txLoop, Bool.false_and, Bool.and_false,
      if_neg Bool.false_ne_true]
    exact ih _ _ _ _

/-- With no timeout budget (`timeoutCheck = false`) the `rx` byte loop never
returns the timeout error. -/
theorem rxLoop_no_timeout (env : Nat → RxByteEnv) (r0 nostop : Bool)
    (rlen : Nat) : ∀ (remaining byteCtr abortReason : Nat)
    (cmds recvd : List Nat),
    (rxLoop env r0 nostop false rlen remaining byteCtr abortReason cmds recvd).err
      ≠ some I2CError.timeout := by
  intro remaining
  induction remaining with
  | zero => intro _ _ _ _; simp [rxLoop]
  | succ n ih =>
    intro byteCtr abortReason cmds recvd
    simp only [rxLoop, Bool.false_and, if_neg Bool.false_ne_true]
    split
    · simp [i2cAbortError_ne_timeout]
    · exact ih _ _ _ _

/-! ## Claim C1 -/

/-- **C1** (code bug).  The claim says `SetBaudrate(f)` succeeds whenever the
low and high counts are each within `[8, register-max]` and the hold count
does not exceed `low - 2`.  At `f = 100000` (standard-mode 100 kHz) the
derived values are `lcnt = 750`, `hcnt = 500` (both in range) and
`sdaTxHoldCnt = 38 ≤ 748 = lcnt - 2`, yet `SetBaudrate` returns
`errInvalidI2CBaudrate`: the source inverts the hold-count comparison
(`if sdaTxHoldCnt <= lcnt-2 { return err }`, where the pico-sdk it ports
rejects `sda_tx_hold_count > lcnt - 2`). -/
theorem c1_setBaudrate_rejects_valid_timing :
    8 ≤ i2cLcnt 100000 ∧ i2cLcnt 100000 ≤ icFsSclLcntMask ∧
    8 ≤ i2cHcnt 100000 ∧ i2cHcnt 100000 ≤ icFsSclHcntMask ∧
    i2cSdaTxHoldCnt 100000 ≤ i2cLcnt 100000 - 2 ∧
    i2cSetBaudrate 100000 = Except.error I2CError.invalidBaudrate := by
  exact ⟨by decide, by decide, by decide, by decide, by decide, rfl⟩

/-! ## Claim C2 -/

/-- **C2** (code bug, write path).  The claim says that once an abort is
observed no further bytes are submitted to the command FIFO in that call.
In this two-byte write the abort-source register reads non-zero (`8`,
`ABRT_TXDATA_NOACK`) already while handling byte 0, yet the call still
writes the second byte (`518 = STOP-bit ||| 6`) to `IC_DATA_CMD`: the `tx`
byte loop has no `break` on abort (unlike `rx`, and unlike the pico-sdk
code it ports), so `cmds` has length 2 instead of 1.  The returned error
confirms an abort was observed. -/
theorem c2_tx_submits_after_abort :
    (i2cTx (fun i => if i = 0 then ⟨false, 8, false⟩ else ⟨false, 0, false⟩)
        ⟨false⟩ 0x10 [5, 6] false 0).cmds = [5, 518] ∧
    (i2cTx (fun i => if i = 0 then ⟨false, 8, false⟩ else ⟨false, 0, false⟩)
        ⟨false⟩ 0x10 [5, 6] false 0).err ≠ none := by
  decide

/-! ## Claim C3 -/

/-- **C3** (code bug).  The claim says installing the same handler twice on
an in-range line succeeds (idempotent).  Starting from an empty vector
table, installing handler `1` on line 13 succeeds, but installing the very
same handler `1` on line 13 again panics with the handler-conflict message:
`irqSetExclusiveHandler` only checks `current != nil` and never compares
identities, contradicting the C-SDK assertion quoted in its own comment
(`current == __unhandled_user_irq || current == handler`). -/
theorem c3_same_handler_twice_panics :
    (irqSetExclusiveHandler (fun _ => none) 13 1).isOk = true ∧
    (irqSetExclusiveHandler (fun _ => none) 13 1).bind
        (fun vt => irqSetExclusiveHandler vt 13 1) =
      Except.error IrqPanic.handlerConflict := by
  exact ⟨rfl, rfl⟩

/-! ## Claim C7 -/

/-- **C7** (code bug, write path).  The claim says an abort with a
data-NACK abort source at byte index `k > 0` yields `DataError{k}`.  In
this three-byte write the abort source reads `8` (`ABRT_TXDATA_NOACK`)
while handling byte 1 and `0` afterwards; because the `tx` loop keeps
running after the abort, the classification at the end sees the
overwritten `abortReason = 0` (and `byteCtr = 3`), so the call returns the
generic bus error instead of `DataError{1}`.  (The read path breaks out of
its loop on abort and classifies correctly.) -/
theorem c7_tx_misclassifies_abort :
    (i2cTx (fun i => if i = 1 then ⟨false, 8, false⟩ else ⟨false, 0, false⟩)
        ⟨false⟩ 0x10 [1, 2, 3] false 0).err = some I2CError.generic ∧
    (i2cTx (fun i => if i = 1 then ⟨false, 8, false⟩ else ⟨false, 0, false⟩)
        ⟨false⟩ 0x10 [1, 2, 3] false 0).err ≠ some (I2CError.buffError 1) := by
  decide

/-! ## Claim C10 -/

/-- **C10** (confirmed).  The public `Tx(addr uint16, w, r)` converts the
address with `uint8(addr)` before validating or using it, so the whole call
behaves identically on `addr` and on `addr % 256`: a 16-bit address whose
low byte is a valid non-reserved 7-bit address is accepted even though the
full value is `≥ 0x80`. -/
theorem c10_tx_uses_low_byte (envW : Nat → TxByteEnv) (envR : Nat → RxByteEnv)
    (st : I2CState) (addr : Nat) (w : List Nat) (rlen : Nat) :
    i2cTxPublic envW envR st addr w rlen =
      i2cTxPublic envW envR st (addr % 256) w rlen := by
  unfold i2cTxPublic
  rw [Nat.mod_mod_of_dvd addr (dvd_refl 256)]

/-- The shared entry check of `tx` and `rx` evaluates to `false` on a valid
(7-bit, non-reserved) target address. -/
theorem i2cAddrCheck_false (addr : Nat) (h1 : addr < 0x80)
    (h2 : isReservedI2CAddr addr = false) :
    (decide (addr ≥ 0x80) || isReservedI2CAddr addr) = false := by
  simp only [h2, Bool.or_false, decide_eq_false_iff_not]
  omega

/-- The shared entry check of `tx` and `rx` evaluates to `true` on every
invalid target address. -/
theorem i2cAddrCheck_true (addr : Nat)
    (h : addr ≥ 0x80 ∨ addr &&& 0x78 = 0 ∨ addr &&& 0x78 = 0x78) :
    (decide (addr ≥ 0x80) || isReservedI2CAddr addr) = true := by
  rcases h with h | h | h
  · simp [h]
  · simp [isReservedI2CAddr, h]
  · simp [isReservedI2CAddr, h]

/-! ## Claim C8 -/

/-- **C8** (confirmed).  For every invalid target address — `addr ≥ 0x80`,
or `(addr & 0x78) == 0`, or `(addr & 0x78) == 0x78` — both `tx` and `rx`
return `errInvalidTgtAddr` immediately: no `IC_DATA_CMD` write, no
controller register access at all (`hw = false`; the address check precedes
`disable`/`IC_TAR`/`enable`), and `restartOnNext` is left unchanged. -/
theorem c8_invalid_addr_rejected (envT : Nat → TxByteEnv)
    (envR : Nat → RxByteEnv) (st st' : I2CState) (addr : Nat)
    (bytes : List Nat) (rlen : Nat) (nostop nostop' : Bool) (t d : Int)
    (h : addr ≥ 0x80 ∨ addr &&& 0x78 = 0 ∨ addr &&& 0x78 = 0x78) :
    i2cTx envT st addr bytes nostop t =
      { err := some I2CError.invalidTgtAddr, restartOnNext := st.restartOnNext,
        cmds := [], hw := false } ∧
    i2cRx envR st' addr rlen nostop' d =
      { err := some I2CError.invalidTgtAddr, restartOnNext := st'.restartOnNext,
        cmds := [], received := [], hw := false } := by
  have hb := i2cAddrCheck_true addr h
  constructor
  · simp [i2cTx, hb]
  · simp [i2cRx, hb]

/-- Witness for C8 at the reserved address `0x78`. -/
theorem c8_invalid_addr_witness :
    ((0x78 : Nat) ≥ 0x80 ∨ (0x78 : Nat) &&& 0x78 = 0 ∨ (0x78 : Nat) &&& 0x78 = 0x78) ∧
    (i2cTx (fun _ => ⟨false, 0, false⟩) ⟨true⟩ 0x78 [5] false 0 =
      { err := some I2CError.invalidTgtAddr, restartOnNext := true,
        cmds := [], hw := false } ∧
    i2cRx (fun _ => ⟨false, 0, 0⟩) ⟨true⟩ 0x78 1 false 0 =
      { err := some I2CError.invalidTgtAddr, restartOnNext := true,
        cmds := [], received := [], hw := false }) :=
  ⟨by decide,
    c8_invalid_addr_rejected (fun _ => ⟨false, 0, false⟩) (fun _ => ⟨false, 0, 0⟩)
      ⟨true⟩ ⟨true⟩ 0x78 [5] 1 false false 0 0 (by decide)⟩

/-! ## Claim C9 -/

/-- **C9** (counterexample).  The claim quantifies over every target
address, but the address validity check precedes the zero-length quick
return: an empty write to address `0x80` returns `errInvalidTgtAddr`, not
success. -/
theorem c9_counterexample_empty_reserved_addr :
    (i2cTx (fun _ => ⟨false, 0, false⟩) ⟨false⟩ 0x80 [] false 0).err =
      some I2CError.invalidTgtAddr := by
  decide

/-- **C9** (amended).  For every valid (7-bit, non-reserved) target
address, a zero-length write and a zero-length read return success
immediately, with no register activity and `restartOnNext` unchanged. -/
theorem c9_empty_transfer_amended (envT : Nat → TxByteEnv)
    (envR : Nat → RxByteEnv) (st st' : I2CState) (addr : Nat)
    (nostop nostop' : Bool) (t d : Int)
    (h1 : addr < 0x80) (h2 : isReservedI2CAddr addr = false) :
    i2cTx envT st addr [] nostop t =
      { err := none, restartOnNext := st.restartOnNext, cmds := [],
        hw := false } ∧
    i2cRx envR st' addr 0 nostop' d =
      { err := none, restartOnNext := st'.restartOnNext, cmds := [],
        received := [], hw := false } := by
  have hb := i2cAddrCheck_false addr h1 h2
  constructor
  · simp [i2cTx, hb]
  · simp [i2cRx, hb]

/-- Witness for the amended C9 at address `0x10`. -/
theorem c9_empty_transfer_witness :
    ((0x10 : Nat) < 0x80 ∧ isReservedI2CAddr 0x10 = false) ∧
    (i2cTx (fun _ => ⟨false, 0, false⟩) ⟨true⟩ 0x10 [] false 0 =
      { err := none, restartOnNext := true, cmds := [], hw := false } ∧
    i2cRx (fun _ => ⟨false, 0, 0⟩) ⟨true⟩ 0x10 0 false 0 =
      { err := none, restartOnNext := true, cmds := [], received := [],
        hw := false }) :=
  ⟨by decide,
    c9_empty_transfer_amended (fun _ => ⟨false, 0, false⟩) (fun _ => ⟨false, 0, 0⟩)
      ⟨true⟩ ⟨true⟩ 0x10 false false 0 0 (by decide) (by decide)⟩

/-! ## Claim C4 -/

/-- **C4** (counterexample).  The claim covers every exit path including
success, but a zero-length write is a success exit that does not touch
`restartOnNext`: with `restartOnNext = true` carried over from an earlier
no-stop call, `tx(0x10, [], noStop = false)` returns `nil` and leaves
`restartOnNext = true ≠ false`. -/
theorem c4_counterexample_empty_write :
    (i2cTx (fun _ => ⟨false, 0, false⟩) ⟨true⟩ 0x10 [] false 0).err = none ∧
    (i2cTx (fun _ => ⟨false, 0, false⟩) ⟨true⟩ 0x10 [] false 0).restartOnNext
      = true := by
  decide

/-- **C4** (amended).  For every `tx` or `rx` call with a valid target
address and a non-empty payload, on every exit path — success, hardware
abort, or timeout, over every hardware oracle — `restartOnNext` equals the
call's `noStop` argument on return; the early rejections (invalid address,
zero-length payload) leave it untouched. -/
theorem c4_restart_tracks_nostop (envT : Nat → TxByteEnv)
    (envR : Nat → RxByteEnv) (st st' : I2CState) (addr addr' : Nat)
    (bytes : List Nat) (rlen : Nat) (nostop nostop' : Bool) (t d : Int)
    (h1 : addr < 0x80) (h2 : isReservedI2CAddr addr = false)
    (hbytes : bytes ≠ [])
    (h1' : addr' < 0x80) (h2' : isReservedI2CAddr addr' = false)
    (hrlen : rlen ≠ 0) :
    (i2cTx envT st addr bytes nostop t).restartOnNext = nostop ∧
    (i2cRx envR st' addr' rlen nostop' d).restartOnNext = nostop' := by
  constructor
  · have hc := i2cAddrCheck_false addr h1 h2
    simp only [i2cTx, hc, if_neg Bool.false_ne_true]
    rw [if_neg (fun h => hbytes (List.length_eq_zero.mp h))]
    exact txLoop_restartOnNext envT st.restartOnNext nostop _ _ bytes 0 false 0 []
  · have hc := i2cAddrCheck_false addr' h1' h2'
    simp only [i2cRx, hc, if_neg Bool.false_ne_true]
    rw [if_neg hrlen]
    exact rxLoop_restartOnNext envR st'.restartOnNext nostop' _ _ rlen 0 0 [] []

/-- Witness for the amended C4: a one-byte write and a one-byte read with
`noStop = true` both end with `restartOnNext = true`. -/
theorem c4_restart_tracks_nostop_witness :
    ((0x10 : Nat) < 0x80 ∧ isReservedI2CAddr 0x10 = false ∧
      ([5] : List Nat) ≠ [] ∧ (1 : Nat) ≠ 0) ∧
    ((i2cTx (fun _ => ⟨false, 0, false⟩) ⟨false⟩ 0x10 [5] true 0).restartOnNext
        = true ∧
      (i2cRx (fun _ => ⟨false, 0, 0⟩) ⟨false⟩ 0x10 1 true 5).restartOnNext
        = true) :=
  ⟨by decide,
    c4_restart_tracks_nostop (fun _ => ⟨false, 0, false⟩) (fun _ => ⟨false, 0, 0⟩)
      ⟨false⟩ ⟨false⟩ 0x10 0x10 [5] 1 true true 0 5
      (by decide) (by decide) (by decide) (by decide) (by decide) (by decide)⟩

/-! ## Claim C5 -/

/-- **C5** (counterexample).  The claim says the read path treats a timeout
budget as active exactly when the supplied integer is non-zero.  But `rx`
computes `timeoutCheck := deadline == 0`: a read call with `deadline = 0`
whose first byte wait stalls returns `errI2CTimeout`, which under the
claim's reading (budget inactive at zero) could never happen. -/
theorem c5_counterexample_rx_timeout_at_zero :
    (i2cRx (fun _ => ⟨true, 0, 0⟩) ⟨false⟩ 0x10 1 false 0).err =
      some I2CError.timeout := by
  decide

/-- **C5** (amended).  The write path treats the timeout budget as active
exactly when `timeout` is non-zero, the read path exactly when `deadline`
is zero (the comparison is inverted between the two).  Consequently a read
with a non-zero deadline and a write with a zero timeout can never return
the timeout error, whatever the hardware does. -/
theorem c5_timeout_gating_amended (envT : Nat → TxByteEnv)
    (envR : Nat → RxByteEnv) (st st' : I2CState) (addr addr' : Nat)
    (bytes : List Nat) (rlen : Nat) (nostop nostop' : Bool) (t d : Int)
    (hd : d ≠ 0) (ht : t = 0) :
    (i2cRx envR st addr rlen nostop d).err ≠ some I2CError.timeout ∧
    (i2cTx envT st' addr' bytes nostop' t).err ≠ some I2CError.timeout := by
  constructor
  · have htc : rxTimeoutCheck d = false := by
      simp [rxTimeoutCheck, hd]
    unfold i2cRx
    rw [htc]
    split
    · simp
    · split
      · simp
      · exact rxLoop_no_timeout envR st.restartOnNext nostop rlen rlen 0 0 [] []
  · subst ht
    have htc : txTimeoutCheck 0 = false := rfl
    unfold i2cTx
    rw [htc]
    split
    · simp
    · split
      · simp
      · exact txLoop_no_timeout envT st'.restartOnNext nostop' _ bytes 0 false 0 []

/-- Witness for the amended C5: stalled hardware, read deadline `1`, write
timeout `0` — neither call returns the timeout error. -/
theorem c5_timeout_gating_witness :
    ((1 : Int) ≠ 0 ∧ (0 : Int) = 0) ∧
    ((i2cRx (fun _ => ⟨true, 0, 0⟩) ⟨false⟩ 0x10 1 false 1).err ≠
        some I2CError.timeout ∧
      (i2cTx (fun _ => ⟨true, 0, true⟩) ⟨false⟩ 0x10 [5] false 0).err ≠
        some I2CError.timeout) :=
  ⟨by decide,
    c5_timeout_gating_amended (fun _ => ⟨true, 0, true⟩) (fun _ => ⟨true, 0, 0⟩)
      ⟨false⟩ ⟨false⟩ 0x10 0x10 [5] 1 false false 0 1
      (by decide) rfl⟩

/-! ## Bit-level facts about acknowledge -/

/-- Clearing a four-bit window at offset `a` does not change the four-bit
window at a disjoint offset `b` (both windows inside the 32-bit register). -/
theorem ackWindow_preserve (s c a b : Nat) (hc : c < 16) (hb : b + 4 ≤ 32)
    (hdisj : a + 4 ≤ b ∨ b + 4 ≤ a) :
    ((s &&& ((2 ^ 32 - 1) ^^^ (c <<< a))) >>> b) &&& 15 = (s >>> b) &&& 15 := by
  apply Nat.eq_of_testBit_eq
  intro i
  simp only [Nat.testBit_and, Nat.testBit_shiftRight, Nat.testBit_xor,
    Nat.testBit_shiftLeft, show (15 : Nat) = 2 ^ 4 - 1 from rfl,
    Nat.testBit_two_pow_sub_one]
  by_cases hi : i < 4
  · have h32 : decide (b + i < 32) = true := by
      simp only [decide_eq_true_eq]; omega
    have hzero : (decide (b + i ≥ a) && c.testBit (b + i - a)) = false := by
      rcases hdisj with hab | hba
      · have h16 : (16 : Nat) ≤ 2 ^ (b + i - a) := by
          calc (16 : Nat) = 2 ^ 4 := by norm_num
            _ ≤ 2 ^ (b + i - a) := Nat.pow_le_pow_right (by norm_num) (by omega)
        have hcbit : c.testBit (b + i - a) = false :=
          Nat.testBit_lt_two_pow (lt_of_lt_of_le hc h16)
        simp [hcbit]
      · have hge : decide (b + i ≥ a) = false := by
          simp only [decide_eq_false_iff_not]; omega
        simp [hge]
    rw [h32, hzero]
    simp
  · simp [hi]

/-- Clearing the four-bit window at offset `a` with exactly its own current
contents zeroes that window. -/
theorem ackWindow_clear (s a : Nat) (ha : a + 4 ≤ 32) :
    ((s &&& ((2 ^ 32 - 1) ^^^ (((s >>> a) &&& 15) <<< a))) >>> a) &&& 15 = 0 := by
  apply Nat.eq_of_testBit_eq
  intro i
  simp only [Nat.testBit_and, Nat.testBit_shiftRight, Nat.testBit_xor,
    Nat.testBit_shiftLeft, show (15 : Nat) = 2 ^ 4 - 1 from rfl,
    Nat.testBit_two_pow_sub_one, Nat.zero_testBit]
  by_cases hi : i < 4
  · have h32 : decide (a + i < 32) = true := by
      simp only [decide_eq_true_eq]; omega
    have hge : decide (a + i ≥ a) = true := by
      simp only [decide_eq_true_eq]; omega
    have hsub : a + i - a = i := by omega
    rw [h32, hge, hsub]
    simp [hi]
  · simp [hi]

/-- Acknowledging pin `p` zeroes the pending-event field of `p`. -/
theorem getIntChange_ack_self (p : Nat) (intS : Nat → Nat) :
    getIntChange p
      ((acknowledgeInterrupt p (getIntChange p (intS (p / 8))) intS) (p / 8))
      = 0 := by
  unfold acknowledgeInterrupt getIntChange
  rw [if_pos rfl]
  exact ackWindow_clear (intS (p / 8)) (4 * (p % 8)) (by omega)

/-- Acknowledging pin `p` leaves the pending-event field of every other pin
unchanged (whether in the same status register or another one). -/
theorem getIntChange_ack_other (p q : Nat) (hqp : q ≠ p) (intS : Nat → Nat) :
    getIntChange q
      ((acknowledgeInterrupt p (getIntChange p (intS (p / 8))) intS) (q / 8))
      = getIntChange q (intS (q / 8)) := by
  unfold acknowledgeInterrupt
  by_cases hreg : q / 8 = p / 8
  · rw [if_pos hreg]
    unfold getIntChange
    rw [hreg]
    apply ackWindow_preserve
    · exact Nat.lt_succ_of_le Nat.and_le_right
    · omega
    · have hmod : q % 8 ≠ p % 8 := fun h => hqp (by omega)
      omega
  · rw [if_neg hreg]

/-- The dispatcher scan loop, started at `gpio` with a registered callback,
services exactly the least pending pin `p ≥ gpio` when every pin between
`gpio` and `p` is idle and `p` is within the remaining fuel. -/
theorem gpioirqLoop_least (intS : Nat → Nat) (p : Nat) :
    ∀ (fuel gpio : Nat), gpio ≤ p → p < gpio + fuel →
      (∀ q, gpio ≤ q → q < p → getIntChange q (intS (q / 8)) = 0) →
      getIntChange p (intS (p / 8)) ≠ 0 →
      gpioirqLoop true intS fuel gpio =
        { outcome := GpioOutcome.serviced (GpioCall.pinOnly p),
          intS := acknowledgeInterrupt p (getIntChange p (intS (p / 8))) intS } := by
  intro fuel
  induction fuel with
  | zero => intro gpio h1 h2 _ _; omega
  | succ n ih =>
    intro gpio h1 h2 hzero hp
    by_cases hg : gpio = p
    · subst hg
      simp only [gpioirqLoop]
      rw [if_pos hp]
      rfl
    · have hlt : gpio < p := by omega
      have hz := hzero gpio le_rfl hlt
      simp only [gpioirqLoop]
      rw [if_neg (fun hcon => hcon hz)]
      exact ih (gpio + 1) (by omega) (by omega)
        (fun q hq1 hq2 => hzero q (by omega) hq2) hp

/-! ## Claim C6 -/

/-- A concrete per-core status bank: pin 3 pending with events `0xC` and
pin 7 pending with events `0x1`, both in register 0; all other pins idle. -/
def c6Bank : Nat → Nat := fun j => if j = 0 then 12 <<< 12 ||| 1 <<< 28 else 0

/-- **C6** (counterexample).  The claim says the dispatcher invokes the
callback with the pin identity and the event mask.  With pin 3 pending
(events `0xC`) the dispatcher invokes `callback(gpio)` — the pin alone —
so the recorded invocation is `pinOnly 3`, not `pinAndEvents 3 12`: the
event mask is used to acknowledge but never passed to the callback
(`pinCallbacks` stores a `func(Pin)`). -/
theorem c6_counterexample_callback_args :
    (gpioirqHandler true c6Bank).outcome =
        GpioOutcome.serviced (GpioCall.pinOnly 3) ∧
    (gpioirqHandler true c6Bank).outcome ≠
        GpioOutcome.serviced (GpioCall.pinAndEvents 3 12) := by
  decide

/-- **C6** (amended).  For every status bank with at least one pin pending
and a registered callback, one dispatcher invocation services exactly the
lowest-index pending pin `p` (pins scanned in ascending order `0..29`): it
acknowledges the event field of `p` (zeroing it), invokes the callback with
the pin identity only, returns immediately, and leaves the pending-event
field of every other pin unchanged. -/
theorem c6_dispatch_services_least (intS : Nat → Nat) (p : Nat)
    (hp : p < 30)
    (hpend : getIntChange p (intS (p / 8)) ≠ 0)
    (hleast : ∀ q, q < p → getIntChange q (intS (q / 8)) = 0) :
    (gpioirqHandler true intS).outcome =
        GpioOutcome.serviced (GpioCall.pinOnly p) ∧
    getIntChange p ((gpioirqHandler true intS).intS (p / 8)) = 0 ∧
    (∀ q, q < 30 → q ≠ p →
      getIntChange q ((gpioirqHandler true intS).intS (q / 8)) =
        getIntChange q (intS (q / 8))) := by
  have hloop := gpioirqLoop_least intS p numBank0GPIOs 0 (Nat.zero_le p)
    (by unfold numBank0GPIOs; omega) (fun q _ hq => hleast q hq) hpend
  unfold gpioirqHandler
  rw [hloop]
  exact ⟨rfl, getIntChange_ack_self p intS,
    fun q _ hqp => getIntChange_ack_other p q hqp intS⟩

/-- Witness for the amended C6 on `c6Bank`: pin 3 is the least pending pin
(pin 7 also pends), and the dispatcher services pin 3 only. -/
theorem c6_dispatch_services_least_witness :
    ((3 : Nat) < 30 ∧ getIntChange 3 (c6Bank (3 / 8)) ≠ 0 ∧
      (∀ q, q < 3 → getIntChange q (c6Bank (q / 8)) = 0)) ∧
    ((gpioirqHandler true c6Bank).outcome =
        GpioOutcome.serviced (GpioCall.pinOnly 3) ∧
      getIntChange 3 ((gpioirqHandler true c6Bank).intS (3 / 8)) = 0 ∧
      (∀ q, q < 30 → q ≠ 3 →
        getIntChange q ((gpioirqHandler true c6Bank).intS (q / 8)) =
          getIntChange q (c6Bank (q / 8)))) :=
  ⟨⟨by decide, by decide, by decide⟩,
    c6_dispatch_services_least c6Bank 3 (by decide) (by decide) (by decide)⟩
